import Mathlib

/-!
Verification of the relevance-filtering core of the research-daily-briefing
pipeline: keyword prefilter, LLM response parser and relevance orchestrator
(`src/processors/ai_filter.py`), embedding filter
(`src/processors/embedding_filter.py`, `src/processors/zhipu_embedding_filter.py`)
and cosine similarity (`src/utils/math_utils.py`).

Python strings are modelled as `List Char` (`Str`), with the string methods
used by the source (`lower`, `strip`, `split`, `replace`, `startswith`, `in`)
re-implemented by structural recursion so that all parsing functions are
executable and kernel-reducible.  `lower` is modelled by `Char.toLower`,
which agrees with Python `str.lower` on the ASCII and CJK text the program
manipulates.  Floating-point numbers are idealised as real numbers.
-/

/-- Python strings, modelled as lists of characters. -/
abbrev Str := List Char

/-- Python `s.lower()`. -/
def pyLower (s : Str) : Str := s.map Char.toLower

/-- Python `needle in hay` (contiguous-substring test). -/
def pySub (needle : Str) : Str → Bool
  | [] => needle.isEmpty
  | c :: cs => needle.isPrefixOf (c :: cs) || pySub needle cs

/-- Python `s.strip()`: drop leading and trailing whitespace. -/
def pyStrip (s : Str) : Str :=
  ((s.dropWhile Char.isWhitespace).reverse.dropWhile Char.isWhitespace).reverse

/-- Python `s.replace(old, new)` for a one-character `old`. -/
def replaceChar (old : Char) (rep : Str) : Str → Str
  | [] => []
  | c :: cs => if c = old then rep ++ replaceChar old rep cs
               else c :: replaceChar old rep cs

/-- Worker for `pySplitOn`.  `fuel` is an upper bound on the length of the
remaining text (the initial call supplies the full length, and every step
consumes at least one character), so the fuel-exhausted branch is
unreachable; it only makes the recursion structural. -/
def pySplitGo (sep : Str) : Nat → Str → Str → List Str
  | _, [], acc => [acc.reverse]
  | 0, rest, acc => [acc.reverse ++ rest]
  | fuel + 1, c :: cs, acc =>
    if sep.isPrefixOf (c :: cs) then
      acc.reverse :: pySplitGo sep fuel (List.drop sep.length (c :: cs)) []
    else
      pySplitGo sep fuel cs (c :: acc)

/-- Python `s.split(sep)` for a non-empty separator (the only way the source
calls it): split on each non-overlapping, leftmost occurrence of `sep`,
keeping empty pieces. -/
def pySplitOn (sep : Str) (s : Str) : List Str :=
  if sep.isEmpty then [s] else pySplitGo sep s.length s []

/-- Splitting on a character predicate, keeping empty pieces. -/
def splitPred (p : Char → Bool) : Str → List Str
  | [] => [[]]
  | c :: cs =>
    if p c then [] :: splitPred p cs
    else
      match splitPred p cs with
      | [] => [[c]]
      | w :: ws => (c :: w) :: ws

/-- Python `s.split()` (no argument): split on whitespace runs, dropping
empty pieces. -/
def splitWS (s : Str) : List Str :=
  (splitPred Char.isWhitespace s).filter (fun w => !w.isEmpty)

/-- `src/utils/math_utils.py`, `cosine_similarity` (identical to the static
method `ZhipuEmbeddingFilter.cosine_similarity`): `dot(a,b)/(‖a‖·‖b‖)`,
returning `0.0` when either norm is zero. -/
noncomputable def cosine_similarity (a b : List ℝ) : ℝ :=
  let dot_product := (List.zipWith (· * ·) a b).sum
  let norm_a := Real.sqrt ((a.map (fun x => x ^ 2)).sum)
  let norm_b := Real.sqrt ((b.map (fun x => x ^ 2)).sum)
  if norm_a = 0 ∨ norm_b = 0 then 0 else dot_product / (norm_a * norm_b)

/-- A paper record (§3 of the spec): the dict produced by the fetchers and
read by the filters.  `similarity_score` is the optional field attached by
the embedding-filter path. -/
structure Paper where
  id : String
  title : String
  abstract : String
  authors : List String
  source : String
  similarity_score : Option ℝ

/-! ## Keyword prefilter (`AIFilter._filter_by_keywords`, `AIFilter._has_keyword`) -/

/-- The per-paper condition of the keyword prefilter loop
(`ai_filter.py:165-169`): some configured keyword, lower-cased, occurs as a
substring of the lower-cased title or abstract. -/
def paper_matches_keywords (keywords : List String) (p : Paper) : Bool :=
  keywords.any fun kw =>
    pySub (pyLower kw.data) (pyLower p.title.data) ||
    pySub (pyLower kw.data) (pyLower p.abstract.data)

/-- `AIFilter._filter_by_keywords` (`ai_filter.py:147-171`): with an empty
keyword list every paper is returned; otherwise keep the papers matching
some keyword. -/
def filter_by_keywords (keywords : List String) (papers : List Paper) : List Paper :=
  if keywords.isEmpty then papers
  else papers.filter (fun p => paper_matches_keywords keywords p)

/-- `AIFilter._has_keyword` (`ai_filter.py:363-379`), the per-paper fallback
used when the judge call fails.  Note: unlike `_filter_by_keywords`, an
empty keyword list yields `false` here (the loop body never runs). -/
def has_keyword (keywords : List String) (p : Paper) : Bool :=
  paper_matches_keywords keywords p

/-! ## Response parser
(the inline parsing block of `AIFilter._check_relevance`, `ai_filter.py:239-350`) -/

/-- The one failure the parsing block can raise: `line.split('decision:')[1]`
with a single-element split result (Python `IndexError`). -/
inductive ParseError where
  | indexError
  deriving DecidableEq, Repr

/-- The markdown-bold decision marker searched for by rule 1. -/
def bold_marker : Str := ("**decision**").data

/-- The plain decision marker searched for by rule 2. -/
def decision_colon : Str := ("decision:").data

/-- Rule-1 line cleaning (`ai_filter.py:247-248`):
`line.replace('*', '').replace(':', ' ').lower().split()`. -/
def clean_tokens (line : Str) : List Str :=
  splitWS (pyLower (replaceChar ':' ([' ']) (replaceChar '*' [] line)))

/-- Rule 1 (`ai_filter.py:243-254`): scan the lines containing
`**decision**` (case-insensitively); on such a line, look for the literal
token `yes` (then `no`) among the cleaned words; first decisive line wins. -/
def rule1 : List Str → Option Bool
  | [] => none
  | l :: rest =>
    if pySub bold_marker (pyLower l) then
      let words := clean_tokens l
      if words.contains (("yes").data) then some true
      else if words.contains (("no").data) then some false
      else rule1 rest
    else rule1 rest

/-- Rule 2 (`ai_filter.py:257-267`): scan the lines containing `decision:`
(case-insensitively); split the line on the literal, case-sensitive text
`decision:` and classify by the prefix of the part after it.  When the line
matches only case-insensitively, the `[1]` index raises `IndexError`. -/
def rule2 : List Str → Except ParseError (Option Bool)
  | [] => .ok none
  | l :: rest =>
    if pySub decision_colon (pyLower l) then
      match pySplitOn decision_colon l with
      | _ :: part :: _ =>
        let dp := pyLower (pyStrip part)
        if ("yes").data.isPrefixOf dp || ("``yes").data.isPrefixOf dp then .ok (some true)
        else if ("no").data.isPrefixOf dp || ("``no").data.isPrefixOf dp then .ok (some false)
        else rule2 rest
      | _ => .error .indexError
    else rule2 rest

/-- First-word affirmative tokens (`ai_filter.py:274`, duplicate included). -/
def first_word_yes : List Str := [("yes").data, ("yes").data, ("yes.").data, ("yes,").data]

/-- First-word negative tokens (`ai_filter.py:277`). -/
def first_word_no : List Str := [("no").data, ("no.").data, ("no,").data]

/-- First-word affirmative Chinese tokens (`ai_filter.py:282`). -/
def first_word_yes_zh : List Str := [("相关").data, ("是").data]

/-- First-word negative Chinese tokens (`ai_filter.py:285`). -/
def first_word_no_zh : List Str := [("不相关").data, ("否").data, ("不是").data]

/-- The ordered analysis-pattern cascade (`ai_filter.py:293-299`). -/
def analysis_patterns : List (Str × Bool) :=
  [(("scientific application: no").data, false),
   (("scientific application: yes").data, true),
   (("agent presence: no").data, false),
   (("not relevant").data, false),
   (("relevant for scientific").data, true)]

/-- Explicit YES patterns (`ai_filter.py:307-314`). -/
def yes_patterns : List Str :=
  [("decision: yes").data, ("decision:``yes").data, ("\"decision\": yes").data,
   ("**decision**: yes").data, (": yes (agent").data, (": yes (scientific").data]

/-- Explicit NO patterns (`ai_filter.py:321-331`). -/
def no_patterns : List Str :=
  [("decision: no").data, ("decision:``no").data, ("\"decision\": no").data,
   ("**decision**: no").data, (": no (not").data, (": no (focuses").data,
   ("scientific application: no").data, ("not a scientific").data,
   ("no (focuses on").data]

/-- Affirmative indicator words of the keyword-balance fallback
(`ai_filter.py:338`). -/
def yes_indicator_words : List Str :=
  [("yes").data, ("相关").data, ("relevant").data, ("pass").data]

/-- Negative indicator words of the keyword-balance fallback
(`ai_filter.py:339`). -/
def no_indicator_words : List Str :=
  [("not relevant").data, ("不相关").data, ("fail").data, ("no").data]

/-- First `(pattern, value)` of the analysis cascade occurring in the text
decides (`ai_filter.py:301-304`). -/
def find_analysis_pattern : List (Str × Bool) → Str → Option Bool
  | [], _ => none
  | (pat, v) :: rest, cl => if pySub pat cl then some v else find_analysis_pattern rest cl

/-- The response-parsing block of `AIFilter._check_relevance`
(`ai_filter.py:239-350`), as a function from the (already stripped) stdout
text to a decision — or to the `IndexError` that rule 2 can raise. -/
def parse_response (content : Str) : Except ParseError Bool :=
  let content_lower := pyLower content
  let content_stripped := pyStrip content
  let ls := pySplitOn (("\n").data) content
  match (if pySub bold_marker content_lower then rule1 ls else none) with
  | some b => .ok b
  | none =>
    match (if pySub decision_colon content_lower then rule2 ls else .ok none) with
    | .error e => .error e
    | .ok (some b) => .ok b
    | .ok none =>
      let first_line :=
        if content_stripped.isEmpty then ([] : Str)
        else (pySplitOn (("\n").data) content_stripped).headD []
      let first_word :=
        if first_line.isEmpty then ([] : Str)
        else pyLower ((splitWS first_line).headD [])
      if first_word_yes.contains first_word then .ok true
      else if first_word_no.contains first_word then .ok false
      else if first_word_yes_zh.contains first_word then .ok true
      else if first_word_no_zh.contains first_word then .ok false
      else
        match find_analysis_pattern analysis_patterns content_lower with
        | some v => .ok v
        | none =>
          if yes_patterns.any (fun pat => pySub pat content_lower) then .ok true
          else if no_patterns.any (fun pat => pySub pat content_lower) then .ok false
          else
            let has_yes := yes_indicator_words.any (fun w => pySub w content_lower)
            let has_no := no_indicator_words.any (fun w => pySub w content_lower)
            if has_yes && !has_no then .ok true
            else if has_no && !has_yes then .ok false
            else .ok false

deriving instance DecidableEq for Except

/-! ## Relevance filter orchestrator (`AIFilter`) -/

/-- Outcome of one Judgment Invoker call (`subprocess.run` of the external
judge, `ai_filter.py:216-225`): a completed process with exit code and
stdout, a timeout (`subprocess.TimeoutExpired`), or any other exception. -/
inductive JudgeOutcome where
  | success (returncode : Int) (stdout : String)
  | timeout
  | exn

/-- The fallback prompt template (`ai_filter.py:203-213`) with title and
abstract substituted. -/
def default_relevance_prompt (title abstract : String) : Str :=
  ("请判断以下论文是否与'科研相关的 AI Agent'相关。\n\n判断标准：\n1. 是否涉及多智能体系统 (multi-agent systems)\n2. 是否涉及 AI/LLM Agent 的研究\n3. 是否涉及自动化科研工具或方法论\n4. 是否涉及强化学习在智能体中的应用\n\n论文标题：").data
    ++ title.data
    ++ ("\n论文摘要：").data ++ abstract.data
    ++ ("\n\n请只回答 '相关' 或 '不相关'，不要解释。").data

/-- Prompt construction of `AIFilter._check_relevance`
(`ai_filter.py:183-213`): the loaded skill text plus the paper, or the
fallback template. -/
def build_prompt (skill_content : Option String) (p : Paper) : Str :=
  match skill_content with
  | some skill =>
    skill.data
      ++ ("\n\n---\n\n请判断以下论文是否与 AI Agents for Scientific Research 相关：\n\n**论文标题**: ").data
      ++ p.title.data
      ++ ("\n\n**论文摘要**: ").data ++ p.abstract.data
      ++ ("\n\n请严格按照上述格式要求输出判断结果（Decision、Reasoning、Confidence）。").data
  | none => default_relevance_prompt p.title p.abstract

/-- `AIFilter._check_relevance` (`ai_filter.py:173-361`): invoke the judge
with the composed prompt; on a zero exit code parse the stripped stdout; on
a non-zero exit code, a timeout, any other invocation failure — or an
exception escaping the parsing block itself — fall back to
`_has_keyword`. -/
def check_relevance (judge : Str → JudgeOutcome) (keywords : List String)
    (skill_content : Option String) (p : Paper) : Bool :=
  match judge (build_prompt skill_content p) with
  | .success rc out =>
    if rc = 0 then
      match parse_response (pyStrip out.data) with
      | .ok b => b
      | .error _ => has_keyword keywords p
    else has_keyword keywords p
  | .timeout => has_keyword keywords p
  | .exn => has_keyword keywords p

/-- The per-paper loop of `AIFilter.filter_papers` (`ai_filter.py:126-139`):
each paper's check runs inside `try/except`; a check that raises keeps the
paper (conservative retention) and the loop continues with its siblings. -/
def relevance_loop (check : Paper → Except Unit Bool) : List Paper → List Paper
  | [] => []
  | p :: ps =>
    match check p with
    | .ok true => p :: relevance_loop check ps
    | .ok false => relevance_loop check ps
    | .error _ => p :: relevance_loop check ps

/-- The `if len(l) > n: l = l[:n]` truncation used by both orchestrators
(`ai_filter.py:120-122`, `embedding_filter.py:96-98`). -/
def truncate_to (n : Nat) (l : List Paper) : List Paper :=
  if n < l.length then l.take n else l

/-- The keyword-prefiltered, truncated candidate list of
`AIFilter.filter_papers` (`ai_filter.py:115-122`). -/
def candidate_papers (keywords : List String) (max_papers : Nat)
    (papers : List Paper) : List Paper :=
  truncate_to max_papers (filter_by_keywords keywords papers)

/-- `AIFilter.filter_papers` (`ai_filter.py:100-145`): keyword prefilter,
truncation to `max_papers`, then — when the judge CLI was found — the
per-paper judgment loop; without the CLI the keyword-filtered list is
returned as is. -/
def AIFilter.filter_papers (use_claude : Bool) (check : Paper → Except Unit Bool)
    (keywords : List String) (max_papers : Nat) (papers : List Paper) : List Paper :=
  let keyword_filtered := candidate_papers keywords max_papers papers
  if use_claude then relevance_loop check keyword_filtered else keyword_filtered

/-- `AIFilter.__init__` (`ai_filter.py:19-40`): reads the configuration,
probes for the CLI and the skill file, and always succeeds — no
configuration value is validated. -/
structure AIFilterState where
  keywords : List String
  max_papers : Nat
  claude_path : Option String
  use_claude : Bool
  skill_content : Option String

/-- Configuration surface read by `AIFilter.__init__` (`config.get` calls
with their defaults). -/
structure AIConfig where
  keywords : Option (List String)
  max_papers : Option Nat

/-- `AIFilter.__init__` (`ai_filter.py:19-40`).  `found_claude` and
`loaded_skill` are the results of the `_find_claude` / `_load_skill`
filesystem probes. -/
def AIFilter.init (config : AIConfig) (found_claude : Option String)
    (loaded_skill : Option String) : AIFilterState :=
  { keywords := config.keywords.getD []
    max_papers := config.max_papers.getD 30
    claude_path := found_claude
    use_claude := found_claude.isSome
    skill_content := loaded_skill }

/-! ## Embedding filter orchestrator (`EmbeddingFilter`) -/

/-- The text embedded for a paper (`embedding_filter.py:106`):
`f"{title} {abstract}"`. -/
def paper_text (p : Paper) : Str :=
  p.title.data ++ (" ").data ++ p.abstract.data

/-- The sort key of the final ordering (`embedding_filter.py:125`):
`p.get('similarity_score', 0)`. -/
noncomputable def sort_key (p : Paper) : ℝ :=
  p.similarity_score.getD 0

/-- The comparator realising Python's stable
`sort(key=sort_key, reverse=True)`. -/
noncomputable def score_desc (a b : Paper) : Bool :=
  decide (sort_key b ≤ sort_key a)

/-- The per-paper loop of `EmbeddingFilter.filter_papers`
(`embedding_filter.py:102-122`): embed title+abstract, score against the
cached query vector, keep (and annotate) papers reaching the threshold; a
failed embedding call skips that one paper. -/
noncomputable def embed_loop (emb : Str → Option (List ℝ)) (query_embedding : List ℝ)
    (threshold : ℝ) : List Paper → List Paper
  | [] => []
  | p :: ps =>
    match emb (paper_text p) with
    | none => embed_loop emb query_embedding threshold ps
    | some v =>
      let similarity := cosine_similarity query_embedding v
      if threshold ≤ similarity then
        { p with similarity_score := some similarity }
          :: embed_loop emb query_embedding threshold ps
      else embed_loop emb query_embedding threshold ps

/-- `EmbeddingFilter.filter_papers` (`embedding_filter.py:80-128`; the
structure of `ZhipuEmbeddingFilter.filter_papers`,
`zhipu_embedding_filter.py:117-165`, is identical): truncate to
`max_papers`, run the per-paper loop, sort by similarity descending
(Python's sort is stable). -/
noncomputable def EmbeddingFilter.filter_papers (emb : Str → Option (List ℝ))
    (query_embedding : List ℝ) (threshold : ℝ) (max_papers : Nat)
    (papers : List Paper) : List Paper :=
  let papers := truncate_to max_papers papers
  (embed_loop emb query_embedding threshold papers).mergeSort score_desc

/-- The scoring loop of `EmbeddingFilter.filter_papers_batch`
(`embedding_filter.py:159-166`): `zip(papers, response.data)` with the same
threshold test and annotation. -/
noncomputable def batch_loop (query_embedding : List ℝ) (threshold : ℝ) :
    List (Paper × List ℝ) → List Paper
  | [] => []
  | (p, v) :: rest =>
    let similarity := cosine_similarity query_embedding v
    if threshold ≤ similarity then
      { p with similarity_score := some similarity } :: batch_loop query_embedding threshold rest
    else batch_loop query_embedding threshold rest

/-- `EmbeddingFilter.filter_papers_batch` (`embedding_filter.py:130-176`):
embed all the papers' texts in one provider call — note: without the
`max_papers` truncation step — score and sort as in the per-item variant;
if the batch call fails, fall back to the per-item variant (which does
truncate). -/
noncomputable def EmbeddingFilter.filter_papers_batch
    (emb_batch : List Str → Option (List (List ℝ))) (emb : Str → Option (List ℝ))
    (query_embedding : List ℝ) (threshold : ℝ) (max_papers : Nat)
    (papers : List Paper) : List Paper :=
  let texts := papers.map paper_text
  match emb_batch texts with
  | some embeddings =>
    (batch_loop query_embedding threshold (papers.zip embeddings)).mergeSort score_desc
  | none => EmbeddingFilter.filter_papers emb query_embedding threshold max_papers papers

/-- Configuration surface read by `EmbeddingFilter.__init__` (`config.get`
calls with their defaults). -/
structure EmbConfig where
  similarity_threshold : Option ℝ
  model : Option String
  max_papers : Option Nat
  query : Option String

/-- The default query text (`embedding_filter.py:39-43`). -/
def default_query : String :=
  "AI agents and multi-agent systems for scientific research, autonomous research assistants, LLM-powered scientific tools, machine learning agents for discovery and automation"

/-- The ways `EmbeddingFilter.__init__` can fail (`embedding_filter.py:46-56`):
missing `openai` library, missing `OPENAI_API_KEY`, or a failing embedding
call for the query text. -/
inductive InitError where
  | importError
  | valueError
  | embeddingError
  deriving DecidableEq, Repr

/-- The state built by a successful `EmbeddingFilter.__init__`. -/
structure EmbeddingFilterState where
  similarity_threshold : ℝ
  model : String
  max_papers : Nat
  query : String
  query_embedding : List ℝ

/-- `EmbeddingFilter.__init__` (`embedding_filter.py:26-58`): read the
configuration (no validation of any numeric value), require the `openai`
library and an API key, and pre-embed the query text. -/
noncomputable def EmbeddingFilter.init (has_openai : Bool) (api_key : Option String)
    (emb : String → Option (List ℝ)) (config : EmbConfig) :
    Except InitError EmbeddingFilterState :=
  let threshold := config.similarity_threshold.getD 0.75
  let model := config.model.getD "text-embedding-3-small"
  let max_papers := config.max_papers.getD 30
  let query := config.query.getD default_query
  if !has_openai then .error .importError
  else
    match api_key with
    | none => .error .valueError
    | some _ =>
      match emb query with
      | none => .error .embeddingError
      | some qe =>
        .ok { similarity_threshold := threshold, model := model,
              max_papers := max_papers, query := query, query_embedding := qe }

/-! ## Spec-side definitions (for comparison with the code) -/

/-- Modelled from the spec (§4.1, §8): the Keyword Prefilter's per-paper
boolean — true iff some keyword (case-insensitively) is a substring of
title or abstract, and true for every paper when the keyword set is empty
(empty configuration means do not filter). -/
def keyword_prefilter_spec (p : Paper) (keywords : List String) : Bool :=
  keywords.isEmpty || paper_matches_keywords keywords p

/-- The hypothesis of claim C2, in the claim's own words: the response
contains a line with a bold Decision marker which, after stripping emphasis
markers and colons and tokenizing on whitespace, carries the token `no`. -/
def spec_bold_no_line (content : Str) : Bool :=
  (pySplitOn (("\n").data) content).any fun l =>
    pySub bold_marker (pyLower l) && (clean_tokens l).contains (("no").data)

/-! ## Concrete fixtures used by witnesses and counterexamples -/

/-- A paper whose title contains the keyword `agent`. -/
def paperAgent : Paper :=
  { id := "1", title := "Multi-Agent LLM System for Automated Lab Experiments",
    abstract := "An autonomous laboratory framework", authors := ["A"],
    source := "arxiv", similarity_score := none }

/-- A paper matching no keyword. -/
def paperPlain : Paper :=
  { id := "2", title := "Spectral Graph Theory Advances",
    abstract := "Pure combinatorics", authors := ["B"],
    source := "arxiv", similarity_score := none }

/-- A judge that always times out. -/
def timeoutJudge : Str → JudgeOutcome := fun _ => JudgeOutcome.timeout

/-! ## Helper lemmas -/

theorem pySub_iff_infix (n h : Str) : pySub n h = true ↔ n <:+: h := by
  induction h with
  | nil => simp [pySub, List.isEmpty_iff, List.infix_nil]
  | cons c cs ih =>
    simp [pySub, List.infix_cons_iff, List.isPrefixOf_iff_prefix, ih]

theorem relevance_loop_ok (f : Paper → Bool) (l : List Paper) :
    relevance_loop (fun p => Except.ok (f p)) l = l.filter f := by
  induction l with
  | nil => rfl
  | cons p ps ih =>
    cases hf : f p <;> simp [relevance_loop, hf, ih, List.filter_cons]

theorem mem_relevance_loop (check : Paper → Except Unit Bool) (l : List Paper)
    (q : Paper) : q ∈ relevance_loop check l ↔ q ∈ l ∧ check q ≠ Except.ok false := by
  induction l with
  | nil => simp [relevance_loop]
  | cons p ps ih =>
    cases hc : check p with
    | ok b =>
      cases b
      · simp only [relevance_loop, hc, ih, List.mem_cons]
        constructor
        · rintro ⟨hq, hne⟩; exact ⟨Or.inr hq, hne⟩
        · rintro ⟨rfl | hq, hne⟩
          · exact absurd hc hne
          · exact ⟨hq, hne⟩
      · simp only [relevance_loop, hc, List.mem_cons, ih]
        constructor
        · rintro (rfl | ⟨hq, hne⟩)
          · exact ⟨Or.inl rfl, by simp [hc]⟩
          · exact ⟨Or.inr hq, hne⟩
        · rintro ⟨rfl | hq, hne⟩
          · exact Or.inl rfl
          · exact Or.inr ⟨hq, hne⟩
    | error e =>
      simp only [relevance_loop, hc, List.mem_cons, ih]
      constructor
      · rintro (rfl | ⟨hq, hne⟩)
        · exact ⟨Or.inl rfl, by simp [hc]⟩
        · exact ⟨Or.inr hq, hne⟩
      · rintro ⟨rfl | hq, hne⟩
        · exact Or.inl rfl
        · exact Or.inr ⟨hq, hne⟩

theorem embed_loop_cons (emb : Str → Option (List ℝ)) (qe : List ℝ) (thr : ℝ)
    (p : Paper) (ps : List Paper) :
    embed_loop emb qe thr (p :: ps) =
      match emb (paper_text p) with
      | none => embed_loop emb qe thr ps
      | some v =>
        if thr ≤ cosine_similarity qe v then
          { p with similarity_score := some (cosine_similarity qe v) }
            :: embed_loop emb qe thr ps
        else embed_loop emb qe thr ps := rfl

theorem mem_embed_loop (emb : Str → Option (List ℝ)) (qe : List ℝ) (thr : ℝ)
    (l : List Paper) (q : Paper) (hq : q ∈ embed_loop emb qe thr l) :
    (∃ s, q.similarity_score = some s ∧ thr ≤ s) ∧
      ∃ p ∈ l, q = { p with similarity_score := q.similarity_score } := by
  induction l with
  | nil => simp [embed_loop] at hq
  | cons p ps ih =>
    rw [embed_loop_cons] at hq
    split at hq
    · obtain ⟨hs, p', hp', hq'⟩ := ih hq
      exact ⟨hs, p', List.mem_cons_of_mem _ hp', hq'⟩
    · split at hq
      · rcases List.mem_cons.mp hq with rfl | hq
        · rename_i v _ ht
          exact ⟨⟨_, rfl, ht⟩, p, List.mem_cons_self _ _, rfl⟩
        · obtain ⟨hs, p', hp', hq'⟩ := ih hq
          exact ⟨hs, p', List.mem_cons_of_mem _ hp', hq'⟩
      · obtain ⟨hs, p', hp', hq'⟩ := ih hq
        exact ⟨hs, p', List.mem_cons_of_mem _ hp', hq'⟩

theorem score_desc_trans : ∀ (a b c : Paper),
    score_desc a b → score_desc b c → score_desc a c := by
  intro a b c hab hbc
  simp only [score_desc, decide_eq_true_eq] at *
  exact le_trans hbc hab

theorem score_desc_total : ∀ (a b : Paper), score_desc a b || score_desc b a := by
  intro a b
  simp only [score_desc, Bool.or_eq_true, decide_eq_true_eq]
  exact le_total (sort_key b) (sort_key a)

theorem truncate_to_sublist (n : Nat) (l : List Paper) : List.Sublist (truncate_to n l) l := by
  unfold truncate_to
  split
  · exact List.take_sublist _ _
  · exact List.Sublist.refl _

theorem filter_by_keywords_sublist (keywords : List String) (papers : List Paper) :
    List.Sublist (filter_by_keywords keywords papers) papers := by
  unfold filter_by_keywords
  split
  · exact List.Sublist.refl _
  · exact List.filter_sublist _

theorem candidate_papers_sublist (keywords : List String) (n : Nat)
    (papers : List Paper) : List.Sublist (candidate_papers keywords n papers) papers :=
  (truncate_to_sublist _ _).trans (filter_by_keywords_sublist _ _)

theorem zipWith_mul_comm (a b : List ℝ) :
    List.zipWith (· * ·) a b = List.zipWith (· * ·) b a := by
  induction a generalizing b with
  | nil => cases b <;> rfl
  | cons x xs ih =>
    cases b with
    | nil => rfl
    | cons y ys => simp [List.zipWith_cons_cons, mul_comm, ih]

theorem zipWith_mul_self (a : List ℝ) :
    List.zipWith (· * ·) a a = a.map (fun x => x ^ 2) := by
  induction a with
  | nil => rfl
  | cons x xs ih => simp [List.zipWith_cons_cons, ih, pow_two]

theorem sumSq_nonneg (a : List ℝ) : 0 ≤ (a.map (fun x => x ^ 2)).sum := by
  induction a with
  | nil => simp
  | cons x xs ih =>
    simp only [List.map_cons, List.sum_cons]
    exact add_nonneg (sq_nonneg x) ih

theorem sumSq_pos (a : List ℝ) (h : ∃ x ∈ a, x ≠ 0) :
    0 < (a.map (fun x => x ^ 2)).sum := by
  obtain ⟨x, hx, hx0⟩ := h
  have h1 : x ^ 2 ≤ (a.map (fun x => x ^ 2)).sum := by
    refine List.single_le_sum ?_ _ (List.mem_map_of_mem _ hx)
    intro y hy
    obtain ⟨z, _, rfl⟩ := List.mem_map.mp hy
    exact sq_nonneg z
  exact lt_of_lt_of_le (pow_two_pos_of_ne_zero hx0) h1

theorem sumSq_eq_zero (a : List ℝ) (h : ∀ x ∈ a, x = 0) :
    (a.map (fun x => x ^ 2)).sum = 0 := by
  refine List.sum_eq_zero ?_
  intro y hy
  obtain ⟨z, hz, rfl⟩ := List.mem_map.mp hy
  rw [h z hz]
  ring

theorem cosine_one_one : cosine_similarity [1] [1] = 1 := by
  simp [cosine_similarity]

theorem cosine_one_zero : cosine_similarity [1] [0] = 0 := by
  simp [cosine_similarity]

theorem embed_loop_some (emb : Str → Option (List ℝ)) (qe : List ℝ) (thr : ℝ)
    (p : Paper) (ps : List Paper) (v : List ℝ) (h : emb (paper_text p) = some v) :
    embed_loop emb qe thr (p :: ps) =
      if thr ≤ cosine_similarity qe v then
        { p with similarity_score := some (cosine_similarity qe v) }
          :: embed_loop emb qe thr ps
      else embed_loop emb qe thr ps := by
  rw [embed_loop_cons, h]

theorem batch_loop_cons (qe : List ℝ) (thr : ℝ) (p : Paper) (v : List ℝ)
    (rest : List (Paper × List ℝ)) :
    batch_loop qe thr ((p, v) :: rest) =
      if thr ≤ cosine_similarity qe v then
        { p with similarity_score := some (cosine_similarity qe v) } :: batch_loop qe thr rest
      else batch_loop qe thr rest := rfl

/-- Concrete evaluation of the per-item embedding filter on one paper whose
embedding coincides with the query embedding. -/
theorem embed_filter_singleton (p : Paper) :
    EmbeddingFilter.filter_papers (fun _ => some [1]) [1] (1 / 2) 30 [p]
      = [{ p with similarity_score := some 1 }] := by
  have h1 : truncate_to 30 [p] = [p] := by simp [truncate_to]
  have h2 : embed_loop (fun _ => some [1]) [1] (1 / 2) [p]
      = [{ p with similarity_score := some (cosine_similarity [1] [1]) }] := by
    rw [embed_loop_some (fun _ => some [1]) [1] (1 / 2) p [] [1] rfl,
      if_pos (by rw [cosine_one_one]; norm_num)]
    rfl
  show (embed_loop (fun _ => some [1]) [1] (1 / 2) (truncate_to 30 [p])).mergeSort score_desc
    = _
  rw [h1, h2, List.mergeSort_singleton, cosine_one_one]

/-- Rule 1 commits to NO at the first marker line whose tokens contain `no`
but not `yes`, provided no earlier marker line has a decisive token. -/
theorem rule1_commits_no (L : Str) (l₂ : List Str)
    (hmark : pySub bold_marker (pyLower L) = true)
    (hno : (clean_tokens L).contains (("no").data) = true)
    (hyes : (clean_tokens L).contains (("yes").data) = false) :
    ∀ l₁ : List Str,
      (∀ L' ∈ l₁, pySub bold_marker (pyLower L') = true →
        (clean_tokens L').contains (("yes").data) = false ∧
        (clean_tokens L').contains (("no").data) = false) →
      rule1 (l₁ ++ L :: l₂) = some false := by
  intro l₁
  induction l₁ with
  | nil =>
    intro _
    rw [List.nil_append]
    simp only [rule1, hmark, hyes, hno]
    simp
  | cons head tail ih =>
    intro hprev
    rw [List.cons_append]
    by_cases hm : pySub bold_marker (pyLower head) = true
    · obtain ⟨hy, hn⟩ := hprev head (List.mem_cons_self _ _) hm
      simp only [rule1, hm, hy, hn]
      simpa using ih (fun x hx hmx => hprev x (List.mem_cons_of_mem _ hx) hmx)
    · rw [Bool.not_eq_true] at hm
      simp only [rule1, hm]
      simpa using ih (fun x hx hmx => hprev x (List.mem_cons_of_mem _ hx) hmx)

/-! ## Claims -/

/-- C1, counterexample: with an empty keyword list and a judge that always
times out, the relevance filter returns the empty list, although the
Keyword Prefilter of the spec (whose empty keyword set passes everything)
keeps the paper — the per-paper fallback `_has_keyword` disagrees with the
prefilter on the empty keyword list. -/
theorem claim_C1_counterexample :
    AIFilter.filter_papers true
        (fun p => Except.ok (check_relevance timeoutJudge [] none p)) [] 30 [paperAgent] = []
    ∧ ([paperAgent].filter (fun q => keyword_prefilter_spec q [])) = [paperAgent]
    ∧ ([] : List Paper) ≠ [paperAgent] :=
  ⟨rfl, rfl, by simp⟩

/-- C1, amended: when the judge is configured and every invocation fails
(non-zero exit, timeout, or exception), the relevance filter returns
exactly the papers of the truncated keyword-prefiltered list that satisfy
the per-paper fallback `_has_keyword` — which is the prefilter's boolean
for non-empty keyword lists, but is `false` on every paper when the
keyword list is empty (so there the output is empty rather than the whole
prefiltered list). -/
theorem claim_C1_amended (keywords : List String) (max_papers : Nat)
    (papers : List Paper) (skill_content : Option String) (judge : Str → JudgeOutcome)
    (hfail : ∀ s rc out, judge s = JudgeOutcome.success rc out → rc ≠ 0) :
    AIFilter.filter_papers true
        (fun p => Except.ok (check_relevance judge keywords skill_content p))
        keywords max_papers papers
      = (candidate_papers keywords max_papers papers).filter
          (fun p => has_keyword keywords p) := by
  have hcr : (fun p => Except.ok (check_relevance judge keywords skill_content p))
      = fun p => (Except.ok (has_keyword keywords p) : Except Unit Bool) := by
    funext p
    unfold check_relevance
    cases hj : judge (build_prompt skill_content p) with
    | success rc out =>
      dsimp only
      rw [if_neg (hfail _ _ _ hj)]
    | timeout => rfl
    | exn => rfl
  show relevance_loop _ (candidate_papers keywords max_papers papers) = _
  rw [hcr, relevance_loop_ok]

/-- C1, witness: two papers, keyword `agent`, always-timing-out judge — the
filter keeps exactly the keyword-matching paper. -/
theorem claim_C1_witness :
    (∀ s rc out, timeoutJudge s = JudgeOutcome.success rc out → rc ≠ 0) ∧
    AIFilter.filter_papers true
        (fun p => Except.ok (check_relevance timeoutJudge ["agent"] none p))
        ["agent"] 30 [paperAgent, paperPlain]
      = [paperAgent] :=
  ⟨fun _ _ _ h => (nomatch h),
   (claim_C1_amended ["agent"] 30 [paperAgent, paperPlain] none timeoutJudge
      (fun _ _ _ h => (nomatch h))).trans rfl⟩

/-- C2, counterexample: the single line `**Decision**: Yes or no` carries
the bold Decision marker with the token `no` among its cleaned words, yet
the parser returns YES, because `yes` is checked first on the very same
line — so the claim as stated (any bold-Decision line carrying `no` forces
NO) is false. -/
theorem claim_C2_counterexample :
    spec_bold_no_line (("**Decision**: Yes or no").data) = true ∧
    parse_response (("**Decision**: Yes or no").data) = Except.ok true :=
  ⟨by decide, by decide⟩

/-- C2, amended: if some line carries the bold Decision marker with the
token `no` and not the token `yes`, and no earlier line carries the marker
together with a `yes` or `no` token, then the parser returns NO — no
looser rule (nor a bare `yes` anywhere else in the text) can override the
bold-field rule once it has committed. -/
theorem claim_C2_amended (content : Str) (l₁ l₂ : List Str) (L : Str)
    (hsplit : pySplitOn (("\n").data) content = l₁ ++ L :: l₂)
    (hgate : pySub bold_marker (pyLower content) = true)
    (hmark : pySub bold_marker (pyLower L) = true)
    (hno : (clean_tokens L).contains (("no").data) = true)
    (hyes : (clean_tokens L).contains (("yes").data) = false)
    (hprev : ∀ L' ∈ l₁, pySub bold_marker (pyLower L') = true →
      (clean_tokens L').contains (("yes").data) = false ∧
      (clean_tokens L').contains (("no").data) = false) :
    parse_response content = Except.ok false := by
  have hr1 : rule1 (l₁ ++ L :: l₂) = some false :=
    rule1_commits_no L l₂ hmark hno hyes l₁ hprev
  simp only [parse_response]
  rw [hsplit, hgate]
  simp [hr1]

/-- C2, witness: `**Decision**: no` on the first line wins over a bare
`yes` later in the text. -/
theorem claim_C2_witness :
    parse_response (("**Decision**: no\nwell yes indeed").data) = Except.ok false :=
  claim_C2_amended (("**Decision**: no\nwell yes indeed").data)
    [] [("well yes indeed").data] (("**Decision**: no").data)
    (by decide) (by decide) (by decide) (by decide) (by decide) (by simp)

/-- C4, code bug: on the input `Decision: NO` the parsing block raises
`IndexError` instead of returning a boolean — the guard lower-cases the
line but `line.split('decision:')` is case-sensitive, so `[1]` does not
exist; the escaped exception is then absorbed by the generic handler,
which answers with the keyword fallback (here: `true`, although the judge
said NO).  The empty string, by contrast, parses to NO as claimed. -/
theorem claim_C4_code_bug :
    parse_response (("Decision: NO").data) = Except.error ParseError.indexError ∧
    check_relevance (fun _ => JudgeOutcome.success 0 ("Decision: NO")) ["agent"] none
        paperAgent = true ∧
    parse_response [] = Except.ok false :=
  ⟨by decide, by decide, by decide⟩

/-- C5: for a non-empty keyword list the prefilter keeps exactly the papers
whose lower-cased title or abstract contains some lower-cased keyword as a
substring, and with the empty keyword list every paper passes. -/
theorem claim_C5 (keywords : List String) (p : Paper) (papers : List Paper)
    (hk : keywords ≠ []) :
    (filter_by_keywords keywords papers
        = papers.filter (fun q => paper_matches_keywords keywords q))
    ∧ (paper_matches_keywords keywords p = true ↔
        ∃ kw ∈ keywords, pyLower kw.data <:+: pyLower p.title.data ∨
          pyLower kw.data <:+: pyLower p.abstract.data)
    ∧ filter_by_keywords [] papers = papers := by
  refine ⟨?_, ?_, rfl⟩
  · unfold filter_by_keywords
    rw [if_neg (by simp [List.isEmpty_iff, hk])]
  · simp [paper_matches_keywords, List.any_eq_true, pySub_iff_infix]

/-- C5, witness: the keyword `agent` matches the first fixture paper and the
filter equations evaluate as stated. -/
theorem claim_C5_witness :
    ((["agent"] : List String) ≠ []) ∧
    ((filter_by_keywords ["agent"] [paperAgent, paperPlain]
        = [paperAgent, paperPlain].filter (fun q => paper_matches_keywords ["agent"] q))
    ∧ (paper_matches_keywords ["agent"] paperAgent = true ↔
        ∃ kw ∈ (["agent"] : List String), pyLower kw.data <:+: pyLower paperAgent.title.data ∨
          pyLower kw.data <:+: pyLower paperAgent.abstract.data)
    ∧ filter_by_keywords [] [paperAgent, paperPlain] = [paperAgent, paperPlain]) :=
  ⟨by simp, claim_C5 ["agent"] paperAgent [paperAgent, paperPlain] (by simp)⟩

/-- C10: if the per-paper check raises (models an exception escaping
`_check_relevance` inside the main loop), the affected paper is retained in
the output, and every candidate's membership in the output is decided by
its own check alone (siblings are unaffected). -/
theorem claim_C10 (check : Paper → Except Unit Bool) (keywords : List String)
    (max_papers : Nat) (papers : List Paper) (p : Paper)
    (hp : p ∈ candidate_papers keywords max_papers papers)
    (he : check p = Except.error ()) :
    p ∈ AIFilter.filter_papers true check keywords max_papers papers ∧
    ∀ q ∈ candidate_papers keywords max_papers papers,
      (q ∈ AIFilter.filter_papers true check keywords max_papers papers ↔
        check q ≠ Except.ok false) := by
  have hfp : AIFilter.filter_papers true check keywords max_papers papers
      = relevance_loop check (candidate_papers keywords max_papers papers) := rfl
  constructor
  · rw [hfp, mem_relevance_loop]
    exact ⟨hp, by simp [he]⟩
  · intro q hq
    rw [hfp, mem_relevance_loop]
    exact ⟨fun h => h.2, fun h => ⟨hq, h⟩⟩

/-- C10, witness: a check that always raises keeps the single candidate. -/
theorem claim_C10_witness :
    paperAgent ∈ AIFilter.filter_papers true (fun _ => Except.error ()) [] 30 [paperAgent] ∧
    ∀ q ∈ candidate_papers [] 30 [paperAgent],
      (q ∈ AIFilter.filter_papers true (fun _ => Except.error ()) [] 30 [paperAgent] ↔
        (fun _ => (Except.error () : Except Unit Bool)) q ≠ Except.ok false) :=
  claim_C10 (fun _ => Except.error ()) [] 30 [paperAgent] paperAgent
    (List.mem_cons_self _ _) rfl

/-- C6: every paper kept by the embedding filter carries a similarity score
at least the threshold, the output is sorted by score descending, and ties
keep the order of the kept list (stability of Python's sort). -/
theorem claim_C6 (emb : Str → Option (List ℝ)) (query_embedding : List ℝ)
    (threshold : ℝ) (max_papers : Nat) (papers : List Paper) :
    (∀ p ∈ EmbeddingFilter.filter_papers emb query_embedding threshold max_papers papers,
        ∃ s, p.similarity_score = some s ∧ threshold ≤ s) ∧
    (EmbeddingFilter.filter_papers emb query_embedding threshold max_papers papers).Pairwise
        (fun a b => sort_key b ≤ sort_key a) ∧
    (∀ a b : Paper, sort_key a = sort_key b →
      List.Sublist [a, b]
          (embed_loop emb query_embedding threshold (truncate_to max_papers papers)) →
      List.Sublist [a, b]
          (EmbeddingFilter.filter_papers emb query_embedding threshold max_papers papers)) := by
  have hfp : EmbeddingFilter.filter_papers emb query_embedding threshold max_papers papers
      = (embed_loop emb query_embedding threshold (truncate_to max_papers papers)).mergeSort
          score_desc := rfl
  refine ⟨?_, ?_, ?_⟩
  · intro p hp
    rw [hfp, List.mem_mergeSort] at hp
    exact (mem_embed_loop _ _ _ _ _ hp).1
  · rw [hfp]
    refine (List.sorted_mergeSort score_desc_trans score_desc_total _).imp ?_
    intro a b hab
    simpa [score_desc] using hab
  · intro a b heq hsub
    rw [hfp]
    exact List.pair_sublist_mergeSort score_desc_trans score_desc_total
      (by simp [score_desc, heq]) hsub

/-- C6, witness: a concrete kept paper carries a score meeting the
threshold. -/
theorem claim_C6_witness :
    ∃ s, ({ paperAgent with similarity_score := some 1 } : Paper).similarity_score = some s ∧
      (1 : ℝ) / 2 ≤ s :=
  (claim_C6 (fun _ => some [1]) [1] (1 / 2) 30 [paperAgent]).1 _
    (by rw [embed_filter_singleton]; exact List.mem_cons_self _ _)

/-- The embedding provider used by the C3 evaluation: the query-identical
vector for the `agent` paper, an orthogonal (here: zero) vector for the
other paper. -/
noncomputable def embC3 : Str → Option (List ℝ) :=
  fun t => if t = paper_text paperAgent then some [1] else some [0]

/-- C3, code bug: with `max_papers = 1`, the per-item variant truncates to
the first paper (scoring 0, below threshold — output empty), while the
batch variant skips the truncation step, embeds both papers and returns
the second one — the two variants disagree on the same inputs. -/
theorem claim_C3_code_bug :
    EmbeddingFilter.filter_papers_batch (fun _ => some [[0], [1]]) embC3 [1] (1 / 2) 1
        [paperPlain, paperAgent]
      = [{ paperAgent with similarity_score := some 1 }] ∧
    EmbeddingFilter.filter_papers embC3 [1] (1 / 2) 1 [paperPlain, paperAgent] = [] ∧
    ([{ paperAgent with similarity_score := some 1 }] : List Paper) ≠ [] := by
  refine ⟨?_, ?_, by simp⟩
  · show (batch_loop [1] (1 / 2)
        ([paperPlain, paperAgent].zip [[0], [1]])).mergeSort score_desc = _
    have hz : ([paperPlain, paperAgent].zip ([[0], [1]] : List (List ℝ)))
        = [(paperPlain, [0]), (paperAgent, [1])] := rfl
    rw [hz, batch_loop_cons, if_neg (by rw [cosine_one_zero]; norm_num),
      batch_loop_cons, if_pos (by rw [cosine_one_one]; norm_num)]
    show ({ paperAgent with
        similarity_score := some (cosine_similarity [1] [1]) } :: []).mergeSort score_desc = _
    rw [List.mergeSort_singleton, cosine_one_one]
  · show (embed_loop embC3 [1] (1 / 2) (truncate_to 1 [paperPlain, paperAgent])).mergeSort
        score_desc = _
    have ht : truncate_to 1 [paperPlain, paperAgent] = [paperPlain] := by
      simp [truncate_to]
    have hemb : embC3 (paper_text paperPlain) = some [0] := by
      unfold embC3
      rw [if_neg (by decide)]
    have hloop : embed_loop embC3 [1] (1 / 2) [paperPlain] = [] := by
      rw [embed_loop_some embC3 [1] (1 / 2) paperPlain [] [0] hemb,
        if_neg (by rw [cosine_one_zero]; norm_num)]
      rfl
    rw [ht, hloop, List.mergeSort_nil]

/-- A configuration carrying exactly the malformed values of claim C7: a
negative similarity threshold and a zero maximum candidate count. -/
noncomputable def badConfig : EmbConfig :=
  { similarity_threshold := some (-1), model := none, max_papers := some 0, query := none }

/-- C7, counterexample: constructing the embedding filter with a negative
threshold and `max_papers = 0` succeeds silently (the constructor checks
only provider availability), and the relevance filter's constructor cannot
fail at all — no eager rejection of malformed configuration exists. -/
theorem claim_C7_counterexample :
    EmbeddingFilter.init true (some "key") (fun _ => some [1]) badConfig
      = Except.ok { similarity_threshold := -1, model := "text-embedding-3-small",
                    max_papers := 0, query := default_query, query_embedding := [1] } ∧
    AIFilter.init { keywords := some [], max_papers := some 0 } none none
      = { keywords := [], max_papers := 0, claude_path := none, use_claude := false,
          skill_content := none } :=
  ⟨rfl, rfl⟩

/-- C7, amended: the embedding filter's constructor validates only the
presence of the provider library, the API key and the query embedding; any
configuration values — including a negative threshold or a zero candidate
cap — are stored unvalidated, and construction succeeds. -/
theorem claim_C7_amended (config : EmbConfig) (key : String)
    (emb : String → Option (List ℝ)) (qe : List ℝ)
    (h : emb (config.query.getD default_query) = some qe) :
    EmbeddingFilter.init true (some key) emb config
      = Except.ok { similarity_threshold := config.similarity_threshold.getD 0.75,
                    model := config.model.getD "text-embedding-3-small",
                    max_papers := config.max_papers.getD 30,
                    query := config.query.getD default_query,
                    query_embedding := qe } := by
  simp [EmbeddingFilter.init, h]

/-- C7, witness: the amended statement applied to the malformed
configuration. -/
theorem claim_C7_witness :
    ((fun _ => some [(1 : ℝ)]) (badConfig.query.getD default_query) = some [(1 : ℝ)]) ∧
    EmbeddingFilter.init true (some "key") (fun _ => some [(1 : ℝ)]) badConfig
      = Except.ok { similarity_threshold := badConfig.similarity_threshold.getD 0.75,
                    model := badConfig.model.getD "text-embedding-3-small",
                    max_papers := badConfig.max_papers.getD 30,
                    query := badConfig.query.getD default_query,
                    query_embedding := [(1 : ℝ)] } :=
  ⟨rfl, claim_C7_amended badConfig "key" (fun _ => some [(1 : ℝ)]) [(1 : ℝ)] rfl⟩

/-- A paper that already carries a similarity score before filtering. -/
noncomputable def paperPreScored : Paper :=
  { id := "3", title := "Agentic Workflows", abstract := "x", authors := [],
    source := "arxiv", similarity_score := some (9 / 10) }

/-- C8, counterexample: a paper whose `similarity_score` is already set is
re-scored by the embedding filter — the pre-existing value 9/10 is
overwritten with the newly computed similarity 1, so enrichment does
overwrite an already-set field. -/
theorem claim_C8_counterexample :
    EmbeddingFilter.filter_papers (fun _ => some [1]) [1] (1 / 2) 30 [paperPreScored]
      = [{ paperPreScored with similarity_score := some 1 }] ∧
    paperPreScored.similarity_score = some (9 / 10) ∧
    ((9 : ℝ) / 10) ≠ 1 :=
  ⟨embed_filter_singleton paperPreScored, rfl, by norm_num⟩

/-- C8, amended: filter stages touch only the `similarity_score` field —
every paper returned by the embedding filter equals an input paper with at
most its `similarity_score` changed (a pre-existing score is overwritten,
not preserved), and the relevance filter returns input papers entirely
unmodified. -/
theorem claim_C8_amended (emb : Str → Option (List ℝ)) (query_embedding : List ℝ)
    (threshold : ℝ) (max_papers : Nat) (papers : List Paper)
    (check : Paper → Except Unit Bool) (keywords : List String) (max_papers2 : Nat) :
    (∀ q ∈ EmbeddingFilter.filter_papers emb query_embedding threshold max_papers papers,
        ∃ p ∈ papers, q = { p with similarity_score := q.similarity_score }) ∧
    (∀ q ∈ AIFilter.filter_papers true check keywords max_papers2 papers, q ∈ papers) := by
  constructor
  · intro q hq
    have hfp : EmbeddingFilter.filter_papers emb query_embedding threshold max_papers papers
        = (embed_loop emb query_embedding threshold (truncate_to max_papers papers)).mergeSort
            score_desc := rfl
    rw [hfp, List.mem_mergeSort] at hq
    obtain ⟨_, p, hp, hq'⟩ := mem_embed_loop _ _ _ _ _ hq
    exact ⟨p, (truncate_to_sublist max_papers papers).subset hp, hq'⟩
  · intro q hq
    have h1 := (mem_relevance_loop check (candidate_papers keywords max_papers2 papers) q).mp hq
    exact (candidate_papers_sublist keywords max_papers2 papers).subset h1.1

/-- C8, witness: the amended frame property applied to concrete runs of both
filters. -/
theorem claim_C8_witness :
    (∃ p ∈ [paperAgent], ({ paperAgent with similarity_score := some 1 } : Paper)
      = { p with similarity_score :=
            ({ paperAgent with similarity_score := some 1 } : Paper).similarity_score }) ∧
    paperAgent ∈ [paperAgent] :=
  ⟨(claim_C8_amended (fun _ => some [1]) [1] (1 / 2) 30 [paperAgent]
      (fun _ => Except.ok true) [] 30).1 _
      (by rw [embed_filter_singleton]; exact List.mem_cons_self _ _),
   (claim_C8_amended (fun _ => some [1]) [1] (1 / 2) 30 [paperAgent]
      (fun _ => Except.ok true) [] 30).2 paperAgent (List.mem_cons_self _ _)⟩

/-- C9: cosine similarity is symmetric; it is 1 on any vector with a
nonzero entry paired with itself; and it is 0 whenever either argument is
a zero vector (the division is guarded). -/
theorem claim_C9 (a b : List ℝ) :
    cosine_similarity a b = cosine_similarity b a ∧
    ((∃ x ∈ a, x ≠ 0) → cosine_similarity a a = 1) ∧
    (((∀ x ∈ a, x = 0) ∨ (∀ x ∈ b, x = 0)) → cosine_similarity a b = 0) := by
  refine ⟨?_, ?_, ?_⟩
  · simp only [cosine_similarity]
    rw [zipWith_mul_comm]
    by_cases h : Real.sqrt ((a.map fun x => x ^ 2).sum) = 0 ∨
        Real.sqrt ((b.map fun x => x ^ 2).sum) = 0
    · rw [if_pos h, if_pos h.symm]
    · rw [if_neg h, if_neg (fun hc => h hc.symm), mul_comm]
  · intro h
    simp only [cosine_similarity]
    have hS : 0 < (a.map fun x => x ^ 2).sum := sumSq_pos a h
    have hsq : Real.sqrt ((a.map fun x => x ^ 2).sum) ≠ 0 := by
      rw [Ne, Real.sqrt_eq_zero']
      exact not_le.mpr hS
    rw [if_neg (by push_neg; exact ⟨hsq, hsq⟩), zipWith_mul_self,
      Real.mul_self_sqrt hS.le, div_self hS.ne']
  · intro h
    simp only [cosine_similarity]
    rcases h with h | h
    · rw [if_pos (Or.inl (by rw [sumSq_eq_zero a h, Real.sqrt_zero]))]
    · rw [if_pos (Or.inr (by rw [sumSq_eq_zero b h, Real.sqrt_zero]))]

/-- C9, witness: the self-similarity and zero-vector cases at concrete
vectors. -/
theorem claim_C9_witness :
    cosine_similarity [1] [1] = 1 ∧ cosine_similarity [1] [0] = 0 :=
  ⟨(claim_C9 [1] [0]).2.1 ⟨1, by simp, one_ne_zero⟩,
   (claim_C9 [1] [0]).2.2 (Or.inr (by intro x hx; simpa using hx))⟩
